import Mathlib

/-!
Verification of the PlexBot playback controller (plex_music_bot.py, two
variants: the top-level file and the `app/` file) against its specification.

The embedding models the data the claims are about:
  * `Song` — the 4-tuples `(url, title, duration, track)` the Python code
    stores in its queues; `track` is an opaque media object, modelled by an
    identifier.
  * `BaseQueue` — the `MusicQueue` class of the top-level variant (a single
    `queue` list).
  * `MusicQueue` — the `MusicQueue` class of the `app/` variant (a `queue`
    list plus a `playlist_queue` list; `next_song` prefers the latter).
  * `SessionState` — the mutable session state of the `app/` variant: the
    guild's voice-client status, the global `music_queue`, and the
    `current_song_title` / `current_song_duration` attributes.
Operations are translated from the source functions `add_song`, `next_song`,
`play_song` (split by its two reachable entry modes), `skip`, `kill`,
`disconnect_after`, `remove_song` and `on_voice_state_update`.
-/

/-- One queue entry: the tuple `(url, song_info, song_duration, track)` that
the Python code appends to its queues.  `track` is an opaque Plex/YouTube
object, modelled as an identifier. -/
structure Song where
  url : String
  title : String
  duration : Nat
  track : Nat
deriving DecidableEq, Repr

/-- `url == "placeholder"` — the zero-duration marker the `/youtube`
playlist command inserts while a bulk import resolves (app variant,
`placeholder_song = ("placeholder", ..., 0, {})`). -/
def Song.isPlaceholder (s : Song) : Bool :=
  s.url == "placeholder"

/-- `MusicQueue` of the top-level variant: one list, `append` /
`pop(0)`. -/
structure BaseQueue where
  queue : List Song
deriving DecidableEq, Repr

/-- `MusicQueue.add_song` (top-level variant): `self.queue.append(song_info)`. -/
def BaseQueue.add_song (q : BaseQueue) (s : Song) : BaseQueue :=
  { queue := q.queue ++ [s] }

/-- `MusicQueue.next_song` (top-level variant): `None` when empty, else
`self.queue.pop(0)`. -/
def BaseQueue.next_song (q : BaseQueue) : Option Song × BaseQueue :=
  match q.queue with
  | [] => (none, q)
  | s :: rest => (some s, { queue := rest })

/-- Repeated `next_song` (top-level variant), fuelled by a pop count. -/
def BaseQueue.drain : Nat → BaseQueue → List Song
  | 0, _ => []
  | n + 1, q =>
    match q.next_song with
    | (none, _) => []
    | (some s, q') => s :: BaseQueue.drain n q'

/-- `MusicQueue` of the `app/` variant: a regular `queue` plus a
`playlist_queue` filled by the background playlist import. -/
structure MusicQueue where
  queue : List Song
  playlist_queue : List Song
deriving DecidableEq, Repr

/-- `MusicQueue.add_song` (app variant): append to `playlist_queue` when the
`playlist` flag is set, else to `queue`. -/
def MusicQueue.add_song (q : MusicQueue) (s : Song) (playlist : Bool := false) : MusicQueue :=
  if playlist then { q with playlist_queue := q.playlist_queue ++ [s] }
  else { q with queue := q.queue ++ [s] }

/-- `MusicQueue.next_song` (app variant): pop `playlist_queue` first, then
`queue`, else `None`. -/
def MusicQueue.next_song (q : MusicQueue) : Option Song × MusicQueue :=
  match q.playlist_queue with
  | s :: rest => (some s, { q with playlist_queue := rest })
  | [] =>
    match q.queue with
    | s :: rest => (some s, { q with queue := rest })
    | [] => (none, q)

/-- Repeated `next_song` (app variant), fuelled by a pop count. -/
def MusicQueue.drain : Nat → MusicQueue → List Song
  | 0, _ => []
  | n + 1, q =>
    match q.next_song with
    | (none, _) => []
    | (some s, q') => s :: MusicQueue.drain n q'

/-- The combined order in which `MusicQueue.next_song` serves entries:
everything in `playlist_queue` before anything in `queue`. -/
def MusicQueue.popOrder (q : MusicQueue) : List Song :=
  q.playlist_queue ++ q.queue

/-- Status of `guild.voice_client`: absent (`None`), or connected with
`is_playing()` / `is_paused()` / neither. -/
inductive VoiceStatus where
  | playing
  | paused
  | idleConnected
  | disconnected
deriving DecidableEq, Repr

/-- What `music_queue.current_song_title` holds.  The Python attribute is
dynamically typed: `skip` stores the bare title string, `play_song` stores
the whole song tuple, both clear it with `None`. -/
inductive CurrentTitle where
  | none
  | title (t : String)
  | info (s : Song)
deriving DecidableEq, Repr

/-- Per-guild session state of the app variant: voice-client status, the
module-level `music_queue`, and its `current_song_title` /
`current_song_duration` attributes. -/
structure SessionState where
  voice : VoiceStatus
  mq : MusicQueue
  currentTitle : CurrentTitle
  currentDuration : Option Nat
deriving DecidableEq, Repr

/-- The user-visible replies the modelled operations send. -/
inductive Msg where
  | skippedCurrent
  | queueEmptyNoMore
  | noSongPlaying
  | stoppedCleared
  | notConnected
  | disconnectIdle
  | queueNotEmptyStay
  | invalidSongNumber
  | removedSong (title : String)
deriving DecidableEq, Repr

/-- How a `play_song` call ends. -/
inductive PlayOutcome where
  | noop
  | notInVoice
  | queued
  | returnedEmpty
  | started (s : Song)
  | errored
deriving DecidableEq, Repr

/-- The body of `play_song` in the app variant from the point where a voice
client exists, specialised to the completion path: `play_next=True`,
`play_called=False`, and `url`/`song_info`/`song_duration`/`track` all
`None` (exactly how `wrapped_play_next` calls it).  The `play_next` branch
pops `next_song()`; a popped `"placeholder"` url triggers exactly one more
`next_song()` (a clean `return` when that second pop is `None`); the chosen
tuple (or the passed `None`s) is stored into `current_song_title` /
`current_song_duration`; finally `voice_client.play(FFmpegPCMAudio(url))`
runs, which raises when the url is `None` (modelled as `errored`). -/
def play_song_next_go (st : SessionState) : SessionState × PlayOutcome :=
  match st.mq.next_song with
  | (none, mq1) =>
    ({ st with mq := mq1, currentTitle := .none, currentDuration := Option.none }, .errored)
  | (some s, mq1) =>
    if s.isPlaceholder then
      match mq1.next_song with
      | (none, mq2) => ({ st with mq := mq2 }, .returnedEmpty)
      | (some s2, mq2) =>
        ({ st with
           mq := mq2,
           currentTitle := .info s2,
           currentDuration := some s2.duration,
           voice := .playing }, .started s2)
    else
      ({ st with
         mq := mq1,
         currentTitle := .info s,
         currentDuration := some s.duration,
         voice := .playing }, .started s)

/-- `play_song` (app variant) as invoked by the completion callback
`wrapped_play_next`.  When `interaction.guild.voice_client is None` the code
reconnects to the caller's voice channel if they are in one
(`channel.connect()`), else sends a message and returns. -/
def play_song_next (st : SessionState) (userInVoice : Bool) : SessionState × PlayOutcome :=
  match st.voice, userInVoice with
  | .disconnected, false => (st, .notInVoice)
  | .disconnected, true => play_song_next_go { st with voice := .idleConnected }
  | _, _ => play_song_next_go st

/-- The body of `play_song` from the point where a voice client exists,
specialised to the command path: `play_next=False`, `play_called=False`, a
concrete song tuple passed in.  With something playing or paused the tuple
is appended to `queue` and the call returns; otherwise the passed tuple is
the one to play, subject to the same single placeholder re-pop, then
`current_song_*` are set and playback starts. -/
def play_song_cmd_go (st : SessionState) (song : Song) : SessionState × PlayOutcome :=
  if st.voice = .playing ∨ st.voice = .paused then
    ({ st with mq := st.mq.add_song song false }, .queued)
  else if song.isPlaceholder then
    match st.mq.next_song with
    | (none, mq2) => ({ st with mq := mq2 }, .returnedEmpty)
    | (some s2, mq2) =>
      ({ st with
         mq := mq2,
         currentTitle := .info s2,
         currentDuration := some s2.duration,
         voice := .playing }, .started s2)
  else
    ({ st with
       currentTitle := .info song,
       currentDuration := some song.duration,
       voice := .playing }, .started song)

/-- `play_song` (app variant) as invoked by the user-command call sites
(`play`, `artist`, `album`, `youtube`, playlists): `play_called=False`,
`play_next=False`. -/
def play_song_cmd (st : SessionState) (song : Song) (userInVoice : Bool) :
    SessionState × PlayOutcome :=
  match st.voice, userInVoice with
  | .disconnected, false => (st, .notInVoice)
  | .disconnected, true => play_song_cmd_go { st with voice := .idleConnected } song
  | _, _ => play_song_cmd_go st song

/-- The tail of `skip` after `voice_client.stop()` and the one-second sleep
(identical in both variants): pop `music_queue.queue` directly — no
placeholder filtering, no look at `playlist_queue` — store the popped title
and duration into `current_song_*`, and call `play_song` with
`play_called=True`, which returns immediately without starting playback;
with an empty `queue` both `current_song_*` attributes are cleared. -/
def skip_rest (st : SessionState) : SessionState × Msg :=
  match st.mq.queue with
  | s :: rest =>
    ({ st with
       mq := { st.mq with queue := rest },
       currentTitle := .title s.title,
       currentDuration := some s.duration },
     Msg.skippedCurrent)
  | [] =>
    ({ st with currentTitle := .none, currentDuration := Option.none }, Msg.queueEmptyNoMore)

/-- `skip` (both variants), as an atomic command: it advances only under
`voice_client and voice_client.is_playing()` — a paused or idle client falls
through to the "There is no song currently playing." reply. -/
def skip (st : SessionState) : SessionState × Msg :=
  match st.voice with
  | .playing => skip_rest { st with voice := .idleConnected }
  | _ => (st, Msg.noSongPlaying)

/-- `skip` as it actually executes: `voice_client.stop()` fires the previous
`play`'s `after=wrapped_play_next` callback, which schedules
`play_song(play_next=True)` onto the event loop; `skip` then does
`await asyncio.sleep(1)`, yielding the loop, so that scheduled `play_song`
runs to completion before the code after the sleep resumes. -/
def interleaved_skip (st : SessionState) (userInVoice : Bool) : SessionState × Msg :=
  match st.voice with
  | .playing => skip_rest (play_song_next { st with voice := .idleConnected } userInVoice).1
  | _ => (st, Msg.noSongPlaying)

/-- `kill` (app variant): with a voice client present, stop any playback,
`music_queue.queue.clear()` — `playlist_queue` is not touched — and
disconnect; with none, reply "Not connected to a voice channel." and change
nothing. -/
def SessionState.kill (st : SessionState) : SessionState × Msg :=
  match st.voice with
  | .disconnected => (st, Msg.notConnected)
  | _ =>
    ({ st with voice := .disconnected, mq := { st.mq with queue := [] } }, Msg.stoppedCleared)

/-- The body of `disconnect_after` once its `await asyncio.sleep(duration)`
expires: re-check `voice_client and not is_playing() and not is_paused()`,
then disconnect only when `len(music_queue.queue) == 0`, else announce that
the queue is not empty and stay. -/
def disconnect_after_fire (st : SessionState) : SessionState × Option Msg :=
  match st.voice with
  | .idleConnected =>
    if st.mq.queue = [] then ({ st with voice := .disconnected }, some Msg.disconnectIdle)
    else (st, some Msg.queueNotEmptyStay)
  | _ => (st, Option.none)

/-- `on_voice_state_update` (app variant), reduced to its decision: when the
bot is the sole remaining member of the channel it calls `kill` on the
channel; otherwise nothing happens. -/
def on_voice_state_update (st : SessionState) (botAlone : Bool) : SessionState × Option Msg :=
  if botAlone then
    let r := SessionState.kill st
    (r.1, some r.2)
  else (st, Option.none)

/-- `remove_song` (both variants): guard
`len(music_queue.queue) >= song_number and song_number > 0`, then
`queue.pop(song_number - 1)` and a reply naming the removed title, else the
"Invalid song number." reply.  The `none` arm of the inner match is
unreachable: the guard puts the index in bounds. -/
def remove_song (queue : List Song) (song_number : Int) : List Song × Msg :=
  if song_number ≤ (queue.length : Int) ∧ 0 < song_number then
    match queue.get? (song_number - 1).toNat with
    | some s => (queue.eraseIdx (song_number - 1).toNat, Msg.removedSong s.title)
    | none => (queue, Msg.invalidSongNumber)
  else (queue, Msg.invalidSongNumber)

/-- Session mutations that can occur between arming the idle timer and its
expiry: a user `Enqueue` (a `play_song` command call) or the audio sink's
completion callback. -/
inductive SessionEvent where
  | enqueueSong (s : Song) (userInVoice : Bool)
  | playbackFinished (userInVoice : Bool)
deriving DecidableEq, Repr

/-- `voice_client` status once the sink stops rendering. -/
def stopPlayback : VoiceStatus → VoiceStatus
  | .playing => .idleConnected
  | .paused => .idleConnected
  | v => v

/-- Apply one event: an enqueue is a `play_song` command call; a completion
is playback ending (the client stops rendering) followed by
`wrapped_play_next`'s `play_song(play_next=True)`. -/
def applyEvent (st : SessionState) : SessionEvent → SessionState
  | .enqueueSong s u => (play_song_cmd st s u).1
  | .playbackFinished u => (play_song_next { st with voice := stopPlayback st.voice } u).1

/-- Apply a sequence of events in order. -/
def applyTrace (st : SessionState) (tr : List SessionEvent) : SessionState :=
  tr.foldl applyEvent st

/-- A session that is idle with an empty backlog, current track cleared —
the situation in which `disconnect_after` gets armed. -/
def idleEmptySession : SessionState :=
  { voice := .idleConnected, mq := { queue := [], playlist_queue := [] },
    currentTitle := .none, currentDuration := Option.none }

/-- Enqueue a list of songs in order through `play_song` command calls. -/
def enqueueTrace (st : SessionState) (songs : List Song) : SessionState :=
  songs.foldl (fun s t => (play_song_cmd s t true).1) st

/-- Session state of the top-level variant for `kill` (its `MusicQueue` has
only the one list). -/
structure BaseSession where
  voice : VoiceStatus
  queue : List Song
deriving DecidableEq, Repr

/-- `kill` (top-level variant): stop playback if any, clear the queue,
disconnect; with no voice client reply "Not connected to a voice channel."
and change nothing. -/
def BaseSession.kill (st : BaseSession) : BaseSession × Msg :=
  match st.voice with
  | .disconnected => (st, Msg.notConnected)
  | _ => ({ voice := .disconnected, queue := [] }, Msg.stoppedCleared)

/-! ## Concrete instances used by counterexamples and witnesses -/

/-- A regular resolved track. -/
def songA : Song := { url := "http://a", title := "A", duration := 200, track := 1 }

/-- A second regular resolved track. -/
def songB : Song := { url := "http://b", title := "B", duration := 300, track := 2 }

/-- A third regular resolved track. -/
def songC : Song := { url := "http://c", title := "C", duration := 400, track := 3 }

/-- A placeholder entry, as built by the `/youtube` playlist branch. -/
def ph1 : Song := { url := "placeholder", title := "Playlist P1", duration := 0, track := 0 }

/-- A second placeholder entry (two bulk imports queued). -/
def ph2 : Song := { url := "placeholder", title := "Playlist P2", duration := 0, track := 0 }

/-! ## C10 — `next_song` is total and prefers the playlist queue -/

/-- C10: asking for the next song when both lists are empty returns `None`
(no exception) and leaves the queue as it was; when the app variant's
`playlist_queue` is non-empty, `next_song` pops from it in preference to the
regular queue; the top-level variant likewise returns `None` on its empty
queue. -/
theorem c10_next_song_total (mq : MusicQueue) (bq : BaseQueue) :
    (mq.queue = [] → mq.playlist_queue = [] → mq.next_song = (none, mq)) ∧
    (∀ s rest, mq.playlist_queue = s :: rest →
      mq.next_song = (some s, { mq with playlist_queue := rest })) ∧
    (bq.queue = [] → bq.next_song = (none, bq)) := by
  obtain ⟨qu, pl⟩ := mq
  obtain ⟨bqu⟩ := bq
  refine ⟨?_, ?_, ?_⟩
  · rintro rfl rfl
    rfl
  · rintro s rest rfl
    rfl
  · rintro rfl
    rfl

/-- C10 at concrete inputs: both lists empty gives `None` unchanged, and a
non-empty playlist queue is popped before a non-empty regular queue. -/
theorem c10_next_song_total_witness :
    MusicQueue.next_song { queue := [], playlist_queue := [] } =
      (none, { queue := [], playlist_queue := [] }) ∧
    MusicQueue.next_song { queue := [songA], playlist_queue := [songC] } =
      (some songC, { queue := [songA], playlist_queue := [] }) :=
  ⟨(c10_next_song_total { queue := [], playlist_queue := [] } ⟨[]⟩).1 rfl rfl,
   (c10_next_song_total { queue := [songA], playlist_queue := [songC] } ⟨[]⟩).2.1 songC [] rfl⟩

/-! ## C7 — `kill` tears the session down and is idempotent -/

/-- C7: `kill` (top-level variant) stops the sink, clears the queue and
leaves the session disconnected — the single module-level session's voice
client is gone, which is this code's analogue of deregistration — and a
second `kill` on the already-disconnected session just replies "Not
connected to a voice channel." without an error and without changing
anything. -/
theorem c7_kill_idempotent (st : BaseSession) (h : st.voice ≠ VoiceStatus.disconnected) :
    (BaseSession.kill st).1.voice = VoiceStatus.disconnected ∧
    (BaseSession.kill st).1.queue = [] ∧
    BaseSession.kill (BaseSession.kill st).1 = ((BaseSession.kill st).1, Msg.notConnected) := by
  obtain ⟨v, q⟩ := st
  cases v <;> simp_all [BaseSession.kill]

/-- C7 applied to a playing session with one queued track. -/
theorem c7_kill_idempotent_witness :
    (BaseSession.kill { voice := VoiceStatus.playing, queue := [songB] }).1.voice =
        VoiceStatus.disconnected ∧
    (BaseSession.kill { voice := VoiceStatus.playing, queue := [songB] }).1.queue = [] ∧
    BaseSession.kill (BaseSession.kill { voice := VoiceStatus.playing, queue := [songB] }).1 =
      ((BaseSession.kill { voice := VoiceStatus.playing, queue := [songB] }).1,
        Msg.notConnected) :=
  c7_kill_idempotent { voice := VoiceStatus.playing, queue := [songB] } (by decide)

/-! ## C8 — `remove_song` rejects out-of-range indices, removes one entry -/

/-- C8: an out-of-range `song_number` (below 1 or above the queue length)
leaves the queue untouched and replies "Invalid song number."; an in-range
index `i + 1` removes exactly the entry at position `i`: the result is the
list with that one entry cut out, one element shorter, and the reply names
the removed title. -/
theorem c8_remove_song (q : List Song) (n : Int) :
    (¬ (1 ≤ n ∧ n ≤ (q.length : Int)) → remove_song q n = (q, Msg.invalidSongNumber)) ∧
    (∀ (i : Nat) (h : i < q.length), n = (i : Int) + 1 →
      (remove_song q n).1 = q.take i ++ q.drop (i + 1) ∧
      (remove_song q n).2 = Msg.removedSong (q.get ⟨i, h⟩).title ∧
      (remove_song q n).1.length + 1 = q.length) := by
  constructor
  · intro hout
    unfold remove_song
    rw [if_neg (by omega)]
  · rintro i h rfl
    have hidx : (((i : Int) + 1) - 1).toNat = i := by omega
    have hguard : (i : Int) + 1 ≤ (q.length : Int) ∧ 0 < (i : Int) + 1 := by omega
    unfold remove_song
    rw [if_pos hguard, hidx, List.get?_eq_get h]
    refine ⟨List.eraseIdx_eq_take_drop_succ q i, rfl, ?_⟩
    simpa using List.length_eraseIdx_add_one h

/-- C8 at concrete inputs: index 4 on a three-song queue is rejected with
the queue unchanged; index 2 removes exactly the second song. -/
theorem c8_remove_song_witness :
    remove_song [songA, songB, songC] 4 = ([songA, songB, songC], Msg.invalidSongNumber) ∧
    (remove_song [songA, songB, songC] 2).1 = [songA, songC] ∧
    (remove_song [songA, songB, songC] 2).2 = Msg.removedSong songB.title :=
  ⟨(c8_remove_song [songA, songB, songC] 4).1 (by decide),
   ((c8_remove_song [songA, songB, songC] 2).2 1 (by decide) (by decide)).1,
   ((c8_remove_song [songA, songB, songC] 2).2 1 (by decide) (by decide)).2.1⟩

/-! ## C6 — Enqueue order is pop order (FIFO) -/

/-- While a track plays or is paused, a `play_song` command call only
appends the passed song to the regular queue. -/
theorem play_song_cmd_busy (st : SessionState) (t : Song) (u : Bool)
    (h : st.voice = VoiceStatus.playing ∨ st.voice = VoiceStatus.paused) :
    play_song_cmd st t u = ({ st with mq := st.mq.add_song t false }, PlayOutcome.queued) := by
  obtain ⟨v, mq, ct, cd⟩ := st
  rcases h with h | h <;> subst h <;> simp [play_song_cmd, play_song_cmd_go]

/-- Enqueueing a list of songs while playing appends them, in order, to the
regular queue. -/
theorem enqueueTrace_playing (ss : List Song) (st : SessionState)
    (h : st.voice = VoiceStatus.playing) :
    enqueueTrace st ss = { st with mq := { st.mq with queue := st.mq.queue ++ ss } } := by
  induction ss generalizing st with
  | nil => simp [enqueueTrace]
  | cons t ts ih =>
    have hstep := play_song_cmd_busy st t true (Or.inl h)
    simp only [enqueueTrace, List.foldl_cons] at *
    rw [hstep]
    rw [ih _ (by simpa [MusicQueue.add_song] using h)]
    simp [MusicQueue.add_song]

/-- Draining the app-variant queue with an empty playlist queue returns the
regular queue in order. -/
theorem drain_queue_only (l : List Song) :
    MusicQueue.drain l.length { queue := l, playlist_queue := [] } = l := by
  induction l with
  | nil => rfl
  | cons s rest ih => simp [MusicQueue.drain, MusicQueue.next_song, ih]

/-- Folding `add_song` (top-level variant) over a list appends it. -/
theorem base_foldl_add_song (ss : List Song) (init : BaseQueue) :
    ss.foldl BaseQueue.add_song init = { queue := init.queue ++ ss } := by
  induction ss generalizing init with
  | nil => simp
  | cons t ts ih => simp [BaseQueue.add_song, ih]

/-- Draining the top-level variant queue returns it in order. -/
theorem base_drain_queue (l : List Song) :
    BaseQueue.drain l.length { queue := l } = l := by
  induction l with
  | nil => rfl
  | cons s rest ih => simp [BaseQueue.drain, BaseQueue.next_song, ih]

/-- C6: a sequence of Enqueue (`play_song` command) calls on an idle session
with no front-insert and no shuffle plays back in call order: the first song
becomes the current track at once, the rest land in the regular queue in
call order, and popping for playback (`next_song`) returns them in exactly
that order; the top-level variant's single-list queue is likewise FIFO. -/
theorem c6_enqueue_fifo (s : Song) (ss : List Song) (h : s.isPlaceholder = false) :
    (enqueueTrace idleEmptySession (s :: ss)).currentTitle = CurrentTitle.info s ∧
    (enqueueTrace idleEmptySession (s :: ss)).voice = VoiceStatus.playing ∧
    (enqueueTrace idleEmptySession (s :: ss)).mq.queue = ss ∧
    MusicQueue.drain ss.length (enqueueTrace idleEmptySession (s :: ss)).mq = ss ∧
    (∀ (bss : List Song),
      BaseQueue.drain bss.length (bss.foldl BaseQueue.add_song { queue := [] }) = bss) := by
  have hfirst : (play_song_cmd idleEmptySession s true).1 =
      { voice := VoiceStatus.playing,
        mq := { queue := [], playlist_queue := [] },
        currentTitle := CurrentTitle.info s,
        currentDuration := some s.duration } := by
    simp [play_song_cmd, play_song_cmd_go, idleEmptySession, h]
  have hcons : enqueueTrace idleEmptySession (s :: ss) =
      enqueueTrace (play_song_cmd idleEmptySession s true).1 ss := rfl
  have htrace : enqueueTrace idleEmptySession (s :: ss) =
      { voice := VoiceStatus.playing,
        mq := { queue := ss, playlist_queue := [] },
        currentTitle := CurrentTitle.info s,
        currentDuration := some s.duration } := by
    rw [hcons, hfirst,
      enqueueTrace_playing ss
        { voice := VoiceStatus.playing,
          mq := { queue := [], playlist_queue := [] },
          currentTitle := CurrentTitle.info s,
          currentDuration := some s.duration } rfl]
    simp
  refine ⟨?_, ?_, ?_, ?_, ?_⟩
  · rw [htrace]
  · rw [htrace]
  · rw [htrace]
  · rw [htrace]
    exact drain_queue_only ss
  · intro bss
    rw [base_foldl_add_song bss { queue := [] }]
    simpa using base_drain_queue bss

/-- C6 applied to the call sequence A, B, C on an idle session: A becomes
current, B and C pop back in that order. -/
theorem c6_enqueue_fifo_witness :
    (enqueueTrace idleEmptySession (songA :: [songB, songC])).currentTitle =
        CurrentTitle.info songA ∧
    (enqueueTrace idleEmptySession (songA :: [songB, songC])).voice = VoiceStatus.playing ∧
    (enqueueTrace idleEmptySession (songA :: [songB, songC])).mq.queue = [songB, songC] ∧
    MusicQueue.drain [songB, songC].length
        (enqueueTrace idleEmptySession (songA :: [songB, songC])).mq = [songB, songC] ∧
    (∀ (bss : List Song),
      BaseQueue.drain bss.length (bss.foldl BaseQueue.add_song { queue := [] }) = bss) :=
  c6_enqueue_fifo songA [songB, songC] (by decide)

/-! ## C1 — what `skip` does -/

/-- C1 as claimed by the spec, at a session `st`: when a track is playing or
paused, `skip` stops it and advances — the first non-placeholder queue entry
becomes current, the queue keeps only what follows it, and playback of it
starts; with nothing left the session goes idle with the current track
cleared; when nothing is playing nor paused, `skip` replies "There is no
song currently playing." and changes nothing. -/
def skipSpecClaim (st : SessionState) : Prop :=
  ((st.voice = VoiceStatus.playing ∨ st.voice = VoiceStatus.paused) →
    ((st.mq.queue.dropWhile (fun s => s.isPlaceholder) = [] →
       (skip st).1.voice = VoiceStatus.idleConnected ∧
       (skip st).1.currentTitle = CurrentTitle.none) ∧
     (∀ s rest, st.mq.queue.dropWhile (fun s => s.isPlaceholder) = s :: rest →
       (skip st).1.currentTitle = CurrentTitle.title s.title ∧
       (skip st).1.mq.queue = rest ∧
       (skip st).1.voice = VoiceStatus.playing))) ∧
  ((st.voice ≠ VoiceStatus.playing ∧ st.voice ≠ VoiceStatus.paused) →
    (skip st).1 = st ∧ (skip st).2 = Msg.noSongPlaying)

/-- A paused session with one queued track. -/
def pausedQueueSession : SessionState :=
  { voice := VoiceStatus.paused,
    mq := { queue := [songB], playlist_queue := [] },
    currentTitle := CurrentTitle.info songA,
    currentDuration := some 200 }

/-- C1 fails on the code: on a paused session with a queued track, `skip`
advances nothing — the guard is `voice_client.is_playing()`, which is false
while paused, so the code replies "There is no song currently playing." and
leaves the queue and current track untouched. -/
theorem c1_counterexample : ¬ skipSpecClaim pausedQueueSession := by
  intro hcl
  have hadv := (hcl.1 (Or.inr rfl)).2 songB [] (by decide)
  exact absurd hadv.1 (by decide)

/-- C1 amended: `skip` advances only when a track is actively playing (a
paused session gets the "nothing playing" reply and is left unchanged); on
advance it stops playback, pops the head of the regular queue with no
placeholder filtering, records that head's title and duration as the
current track, and does not itself start playback of it (it calls
`play_song` with `play_called=True`, an immediate return); on an empty
regular queue it clears the current track and stays connected idle. -/
theorem c1_skip_amended (st : SessionState) :
    (st.voice ≠ VoiceStatus.playing → skip st = (st, Msg.noSongPlaying)) ∧
    (st.voice = VoiceStatus.playing →
      (∀ s rest, st.mq.queue = s :: rest →
        skip st =
          ({ st with
             voice := VoiceStatus.idleConnected,
             mq := { st.mq with queue := rest },
             currentTitle := CurrentTitle.title s.title,
             currentDuration := some s.duration }, Msg.skippedCurrent)) ∧
      (st.mq.queue = [] →
        skip st =
          ({ st with
             voice := VoiceStatus.idleConnected,
             currentTitle := CurrentTitle.none,
             currentDuration := Option.none }, Msg.queueEmptyNoMore))) := by
  obtain ⟨v, ⟨qu, pl⟩, ct, cd⟩ := st
  refine ⟨?_, ?_⟩
  · intro hv
    cases v <;> simp_all [skip]
  · rintro rfl
    refine ⟨?_, ?_⟩
    · rintro s rest rfl
      simp [skip, skip_rest]
    · rintro rfl
      simp [skip, skip_rest]

/-- C1 amended, applied: a playing session with queue `[B]` pops `B` as the
new current title without starting it, and the paused session is left
unchanged with the "nothing playing" reply. -/
theorem c1_skip_amended_witness :
    skip { voice := VoiceStatus.playing,
           mq := { queue := [songB], playlist_queue := [] },
           currentTitle := CurrentTitle.info songA,
           currentDuration := some 200 } =
      ({ voice := VoiceStatus.idleConnected,
         mq := { queue := [], playlist_queue := [] },
         currentTitle := CurrentTitle.title songB.title,
         currentDuration := some songB.duration }, Msg.skippedCurrent) ∧
    skip pausedQueueSession = (pausedQueueSession, Msg.noSongPlaying) :=
  ⟨((c1_skip_amended _).2 rfl).1 songB [] rfl,
   (c1_skip_amended pausedQueueSession).1 (by decide)⟩

/-! ## C2 — placeholder handling on pop -/

/-- How the completion path's entry choice depends only on the combined pop
order: empty order errors (the code proceeds to `play(None)`), a
non-placeholder head is started, a placeholder head triggers exactly one
more pop — a clean return when nothing follows, otherwise the following
entry is started with no further placeholder check. -/
theorem play_song_next_go_outcome (st : SessionState) :
    (play_song_next_go st).2 =
      (match st.mq.popOrder with
       | [] => PlayOutcome.errored
       | p :: rest =>
         if p.isPlaceholder then
           match rest with
           | [] => PlayOutcome.returnedEmpty
           | q :: _ => PlayOutcome.started q
         else PlayOutcome.started p) := by
  obtain ⟨v, ⟨qu, pl⟩, ct, cd⟩ := st
  cases pl with
  | nil =>
    cases qu with
    | nil => rfl
    | cons a qs =>
      cases hp : a.isPlaceholder <;>
        cases qs <;>
          simp [play_song_next_go, MusicQueue.next_song, MusicQueue.popOrder, hp]
  | cons p ps =>
    cases hp : p.isPlaceholder <;>
      cases ps <;>
        cases qu <;>
          simp [play_song_next_go, MusicQueue.next_song, MusicQueue.popOrder, hp]

/-- With a voice client present (or reconnectable), `play_song` on the
completion path is its post-connection body. -/
theorem play_song_next_eq_go (st : SessionState) (u : Bool)
    (h : st.voice ≠ VoiceStatus.disconnected) :
    play_song_next st u = play_song_next_go st := by
  obtain ⟨v, mq, ct, cd⟩ := st
  cases v <;> cases u <;> simp_all [play_song_next]

/-- C2 as claimed by the spec: popping for playback never yields a
placeholder — whenever the popped head is a placeholder the pop repeats
until a non-placeholder or an empty queue is reached, so a placeholder is
never started. -/
def playSongNeverStartsPlaceholder : Prop :=
  ∀ (st : SessionState) (u : Bool) (s : Song),
    (play_song_next st u).2 = PlayOutcome.started s → s.isPlaceholder = false

/-- C2 fails on the code: the placeholder check runs once, not in a loop —
with two placeholders at the head of the queue, the first pop finds a
placeholder, the single re-pop returns the second placeholder, and that
placeholder is started as playback. -/
theorem c2_counterexample : ¬ playSongNeverStartsPlaceholder := by
  intro hcl
  have h2 := hcl
    { voice := VoiceStatus.idleConnected,
      mq := { queue := [ph1, ph2], playlist_queue := [] },
      currentTitle := CurrentTitle.none,
      currentDuration := Option.none }
    true ph2 (by decide)
  exact absurd h2 (by decide)

/-- C2 amended: popping a placeholder pops exactly once more, with no
further placeholder check: a lone placeholder is never started (the call
returns cleanly), a placeholder followed by any entry starts that entry —
even when it is itself a placeholder — and a non-placeholder head is
started directly. -/
theorem c2_placeholder_single_repop (st : SessionState) (u : Bool)
    (h : st.voice ≠ VoiceStatus.disconnected) :
    (∀ p, st.mq.popOrder = [p] → p.isPlaceholder = true →
      (play_song_next st u).2 = PlayOutcome.returnedEmpty) ∧
    (∀ p q rest, st.mq.popOrder = p :: q :: rest → p.isPlaceholder = true →
      (play_song_next st u).2 = PlayOutcome.started q) ∧
    (∀ p rest, st.mq.popOrder = p :: rest → p.isPlaceholder = false →
      (play_song_next st u).2 = PlayOutcome.started p) := by
  rw [play_song_next_eq_go st u h]
  refine ⟨?_, ?_, ?_⟩
  · intro p hpo hpl
    rw [play_song_next_go_outcome st, hpo]
    simp [hpl]
  · intro p q rest hpo hpl
    rw [play_song_next_go_outcome st, hpo]
    simp [hpl]
  · intro p rest hpo hpl
    rw [play_song_next_go_outcome st, hpo]
    simp [hpl]

/-- C2 amended, applied: a lone placeholder yields a clean return; a
placeholder followed by track A starts A; head track A starts A. -/
theorem c2_placeholder_single_repop_witness :
    (play_song_next
      { voice := VoiceStatus.idleConnected,
        mq := { queue := [ph1], playlist_queue := [] },
        currentTitle := CurrentTitle.none, currentDuration := Option.none } true).2 =
      PlayOutcome.returnedEmpty ∧
    (play_song_next
      { voice := VoiceStatus.idleConnected,
        mq := { queue := [ph1, songA], playlist_queue := [] },
        currentTitle := CurrentTitle.none, currentDuration := Option.none } true).2 =
      PlayOutcome.started songA :=
  ⟨(c2_placeholder_single_repop
      { voice := VoiceStatus.idleConnected,
        mq := { queue := [ph1], playlist_queue := [] },
        currentTitle := CurrentTitle.none, currentDuration := Option.none } true
      (by decide)).1 ph1 (by decide) (by decide),
   (c2_placeholder_single_repop
      { voice := VoiceStatus.idleConnected,
        mq := { queue := [ph1, songA], playlist_queue := [] },
        currentTitle := CurrentTitle.none, currentDuration := Option.none } true
      (by decide)).2.1 ph1 songA [] (by decide) (by decide)⟩

/-! ## C3 — completion delivered after `kill` -/

/-- A session killed while the user stays in the voice channel, with one
already-resolved playlist entry still in `playlist_queue` (the background
playlist import keeps filling it; `kill` clears only `queue`). -/
def c3Session : SessionState :=
  { voice := VoiceStatus.playing,
    mq := { queue := [], playlist_queue := [songC] },
    currentTitle := CurrentTitle.info songA,
    currentDuration := some 200 }

/-- The same scenario with both backlog lists empty. -/
def c3EmptySession : SessionState :=
  { voice := VoiceStatus.playing,
    mq := { queue := [], playlist_queue := [] },
    currentTitle := CurrentTitle.info songA,
    currentDuration := some 200 }

/-- C3 fails on the code: there is no generation (or any staleness) check in
`wrapped_play_next`, so a completion delivered after `kill` re-enters
`play_song`, finds the voice client gone, reconnects to the caller's
channel, pops the surviving `playlist_queue` entry and starts playing it —
a reconnection and a new track after teardown; and with both backlog lists
empty the same delivery reaches `voice_client.play(FFmpegPCMAudio(None))`,
which raises, instead of being silently discarded. -/
theorem c3_completion_after_kill :
    (SessionState.kill c3Session).1.voice = VoiceStatus.disconnected ∧
    (play_song_next (SessionState.kill c3Session).1 true).1.voice = VoiceStatus.playing ∧
    (play_song_next (SessionState.kill c3Session).1 true).2 = PlayOutcome.started songC ∧
    (play_song_next (SessionState.kill c3EmptySession).1 true).2 = PlayOutcome.errored := by
  decide

/-! ## C4 — the idle timer and an intervening Enqueue -/

/-- C4 as claimed by the spec: on any session armed for idle disconnect
(idle, empty queue), any event sequence containing a successful Enqueue
prevents the timer's expiry from disconnecting. -/
def enqueuePreventsDisconnect : Prop :=
  ∀ (st : SessionState) (tr : List SessionEvent),
    st.voice = VoiceStatus.idleConnected → st.mq.queue = [] →
    (∃ e ∈ tr, ∃ s u, e = SessionEvent.enqueueSong s u) →
    (disconnect_after_fire (applyTrace st tr)).1.voice ≠ VoiceStatus.disconnected

/-- C4 fails on the code: `disconnect_after`'s sleep is never cancelled — an
Enqueue only survives expiry if the session is still busy then.  Concretely:
arm on an idle empty session, Enqueue track A (playback starts at once), A
finishes before the timer expires (queues empty, so the completion leaves
the session idle again), and the still-pending timer then fires and
disconnects despite the intervening successful Enqueue. -/
theorem c4_counterexample : ¬ enqueuePreventsDisconnect := by
  intro hcl
  exact hcl idleEmptySession
    [SessionEvent.enqueueSong songA true, SessionEvent.playbackFinished true]
    rfl rfl
    ⟨SessionEvent.enqueueSong songA true, by simp, songA, true, rfl⟩
    (by decide)

/-- C4 amended: the timer is never cancelled; expiry re-checks instead.  A
fire while the session is playing, paused, or has a non-empty regular queue
changes nothing — in particular, an Enqueue on the armed idle session starts
playback at once, so a fire while that track still plays does not
disconnect; a fire that finds the session connected-idle with an empty
regular queue disconnects it (the single global session's voice client is
gone, the code's analogue of deregistration), whether or not an Enqueue
intervened earlier. -/
theorem c4_fire_recheck (st : SessionState) :
    ((st.voice = VoiceStatus.playing ∨ st.voice = VoiceStatus.paused ∨ st.mq.queue ≠ []) →
      (disconnect_after_fire st).1 = st) ∧
    (st.voice = VoiceStatus.idleConnected → st.mq.queue = [] →
      (disconnect_after_fire st).1.voice = VoiceStatus.disconnected ∧
      (disconnect_after_fire st).1.mq = st.mq) ∧
    (∀ s u, st.voice = VoiceStatus.idleConnected → st.mq.queue = [] →
      s.isPlaceholder = false →
      (disconnect_after_fire (applyEvent st (SessionEvent.enqueueSong s u))).1.voice =
        VoiceStatus.playing) := by
  obtain ⟨v, ⟨qu, pl⟩, ct, cd⟩ := st
  refine ⟨?_, ?_, ?_⟩
  · intro h
    rcases h with h | h | h
    · subst h; rfl
    · subst h; rfl
    · cases v <;> [rfl; rfl; skip; rfl]
      cases qu with
      | nil => exact absurd rfl h
      | cons a qs => simp [disconnect_after_fire]
  · rintro rfl rfl
    exact ⟨rfl, rfl⟩
  · rintro s u rfl rfl hs
    simp [applyEvent, play_song_cmd, play_song_cmd_go, hs, disconnect_after_fire]

/-- C4 amended, applied: expiry on the untouched armed session disconnects;
expiry right after an Enqueue (track still playing) does not. -/
theorem c4_fire_recheck_witness :
    (disconnect_after_fire idleEmptySession).1.voice = VoiceStatus.disconnected ∧
    (disconnect_after_fire
      (applyEvent idleEmptySession (SessionEvent.enqueueSong songA true))).1.voice =
      VoiceStatus.playing :=
  ⟨((c4_fire_recheck idleEmptySession).2.1 rfl rfl).1,
   (c4_fire_recheck idleEmptySession).2.2 songA true rfl rfl (by decide)⟩

/-! ## C5 — last participant leaves the call -/

/-- C5 as claimed by the spec, at a session `st`: the bot left alone in the
channel is disconnected at once, with the whole backlog cleared. -/
def emptyChannelClaim (st : SessionState) : Prop :=
  (on_voice_state_update st true).1.voice = VoiceStatus.disconnected ∧
  (on_voice_state_update st true).1.mq.queue = [] ∧
  (on_voice_state_update st true).1.mq.playlist_queue = []

/-- A playing session with entries in both backlog lists. -/
def c5Session : SessionState :=
  { voice := VoiceStatus.playing,
    mq := { queue := [songB], playlist_queue := [songC] },
    currentTitle := CurrentTitle.info songA,
    currentDuration := some 200 }

/-- C5 fails on the code in one respect: the alone-in-channel path does call
`kill`, which disconnects at once and clears `queue`, but `kill` never
touches the app variant's `playlist_queue`, so part of the backlog survives
the teardown. -/
theorem c5_counterexample : ¬ emptyChannelClaim c5Session := by
  intro hcl
  exact absurd hcl.2.2 (by decide)

/-- C5 amended: when the presence update finds the bot alone, the session is
killed immediately — bypassing the idle grace period, regardless of a
playing track or a non-empty queue: playback stops, the regular queue is
cleared and the voice client disconnects — but the separate
`playlist_queue` is left exactly as it was. -/
theorem c5_alone_kill (st : SessionState) (h : st.voice ≠ VoiceStatus.disconnected) :
    (on_voice_state_update st true).1.voice = VoiceStatus.disconnected ∧
    (on_voice_state_update st true).1.mq.queue = [] ∧
    (on_voice_state_update st true).1.mq.playlist_queue = st.mq.playlist_queue ∧
    (on_voice_state_update st true).2 = some Msg.stoppedCleared := by
  obtain ⟨v, mq, ct, cd⟩ := st
  cases v <;> simp_all [on_voice_state_update, SessionState.kill]

/-- C5 amended, applied to a playing session with both lists non-empty. -/
theorem c5_alone_kill_witness :
    (on_voice_state_update c5Session true).1.voice = VoiceStatus.disconnected ∧
    (on_voice_state_update c5Session true).1.mq.queue = [] ∧
    (on_voice_state_update c5Session true).1.mq.playlist_queue = [songC] :=
  ⟨(c5_alone_kill c5Session (by decide)).1,
   (c5_alone_kill c5Session (by decide)).2.1,
   (c5_alone_kill c5Session (by decide)).2.2.1⟩

/-! ## C9 — serialization of session mutations -/

/-- A session playing track A with track B queued. -/
def c9Session : SessionState :=
  { voice := VoiceStatus.playing,
    mq := { queue := [songB], playlist_queue := [] },
    currentTitle := CurrentTitle.info songA,
    currentDuration := some 200 }

/-- C9 fails on the code: mutations are not serialized.  The declared
`play_lock` is never acquired anywhere, and `skip` itself proves the
interleaving: its `voice_client.stop()` makes the audio library fire
`wrapped_play_next`, which schedules `play_song(play_next=True)` onto the
event loop, and `skip`'s `await asyncio.sleep(1)` then yields the loop to
that coroutine mid-command.  Run like the code runs
(`interleaved_skip`), the callback pops and starts B during `skip`'s sleep,
after which `skip` resumes, sees an empty queue and clears the current
track: the session ends up playing B with `current_song_title = None` and
the user told the queue is over — while the serialized command semantics
(`skip` as one atomic step) records B as current.  A single serialized
stream could not produce the playing-with-no-current state. -/
theorem c9_unserialized_interleaving :
    (interleaved_skip c9Session true).1.voice = VoiceStatus.playing ∧
    (interleaved_skip c9Session true).1.currentTitle = CurrentTitle.none ∧
    (interleaved_skip c9Session true).2 = Msg.queueEmptyNoMore ∧
    (skip c9Session).1.currentTitle = CurrentTitle.title songB.title ∧
    (skip c9Session).2 = Msg.skippedCurrent := by
  decide
